import Mathlib

/-!
Shallow embedding of src/custom_components/smartthings/fan.py (SmartThings
fan platform for Home Assistant) together with the narrow external helpers
the module calls:

* homeassistant.util.percentage: `states_in_range`, `int_states_in_range`,
  `ranged_value_to_percentage`, `percentage_to_ranged_value` (pure math
  helpers, treated by the spec as external collaborators with a fixed
  contract; they are embedded here from their standard implementation:
  `ranged_value_to_percentage(r, v) = int(((v - offset) * 100) // states)`,
  `percentage_to_ranged_value(r, p) = states * p / 100 + offset`, with
  `offset = low - 1` and `states = high - low + 1`).
* math.ceil from the Python standard library.

Numeric modelling: the Python helpers compute with IEEE floats, but every
value reached from this module is a rational of the form (small int) * p / 100
with magnitude below 2^20, where float arithmetic is exact up to rounding
error far smaller than the distance to the nearest integer boundary, so
floor division and ceiling agree with exact rational arithmetic; speeds and
percentages are embedded as Int and exact rationals.
-/

/-- Closed integer range of speeds, as the pair (low, high) used by the
homeassistant.util.percentage helpers. -/
structure SpeedRange where
  low : Int
  high : Int
  deriving DecidableEq, Repr

/-- Embeds homeassistant.util.percentage.states_in_range:
high - low + 1. -/
def states_in_range (r : SpeedRange) : Int :=
  r.high - r.low + 1

/-- Embeds homeassistant.util.percentage.int_states_in_range:
int(states_in_range(r)); the value is already an integer. -/
def int_states_in_range (r : SpeedRange) : Int :=
  states_in_range r

/-- Embeds homeassistant.util.percentage.ranged_value_to_percentage:
offset = low - 1; int(((value - offset) * 100) // states_in_range(r)).
Python floor division is Int.fdiv. -/
def ranged_value_to_percentage (r : SpeedRange) (value : Int) : Int :=
  ((value - (r.low - 1)) * 100).fdiv (states_in_range r)

/-- Embeds homeassistant.util.percentage.percentage_to_ranged_value:
offset = low - 1; states_in_range(r) * percentage / 100 + offset, an exact
rational for the integer inputs of this module. -/
def percentage_to_ranged_value (r : SpeedRange) (percentage : Int) : ℚ :=
  (states_in_range r : ℚ) * (percentage : ℚ) / 100 + ((r.low : ℚ) - 1)

/-- Embeds the Python math.ceil on the exact rational value. -/
def math.ceil (q : ℚ) : Int :=
  ⌈q⌉

/-- Embeds fan.py SPEED_RANGE = (1, 3) (off is not included). -/
def SPEED_RANGE : SpeedRange :=
  ⟨1, 3⟩

/-- Embeds the pysmartthings constant Capability.switch. -/
def Capability.switch : String :=
  "switch"

/-- Embeds the pysmartthings constant Capability.fan_speed (the SmartThings
capability identifier fanSpeed). -/
def Capability.fan_speed : String :=
  "fanSpeed"

/-- Embeds fan.py STANDARD_FAN_CAPABILITIES. -/
def STANDARD_FAN_CAPABILITIES : List String :=
  [Capability.switch, Capability.fan_speed]

/-- Embeds fan.py HOOD_FAN_CAPABILITY. -/
def HOOD_FAN_CAPABILITY : String :=
  "samsungce.hoodFanSpeed"

/-- Embeds fan.py get_capabilities: the hood capability alone when present,
else the standard pair when both members are present, else the implicit
Python None at the end of the function. -/
def get_capabilities (capabilities : List String) : Option (List String) :=
  if HOOD_FAN_CAPABILITY ∈ capabilities then
    some [HOOD_FAN_CAPABILITY]
  else if STANDARD_FAN_CAPABILITIES.all (fun capability => capability ∈ capabilities) then
    some STANDARD_FAN_CAPABILITIES
  else
    none

/-- Commands the standard fan issues on the pysmartthings device handle,
each carrying its set_status keyword argument. -/
inductive DeviceCommand where
  | switch_on (set_status : Bool)
  | switch_off (set_status : Bool)
  | set_fan_speed (value : Int) (set_status : Bool)
  deriving DecidableEq, Repr

/-- Value of the set_status keyword argument a device command carries. -/
def DeviceCommand.set_status : DeviceCommand → Bool
  | .switch_on s => s
  | .switch_off s => s
  | .set_fan_speed _ s => s

/-- Observable effect of one SmartThingsFan.async_set_percentage call: the
single device command issued and whether async_update_ha_state(True), a
forced full refresh, follows. -/
structure FanSetPercentageEffect where
  command : DeviceCommand
  forced_refresh : Bool
  deriving DecidableEq, Repr

/-- Top-level device status snapshot read by the standard fan
(device.status.switch and device.status.fan_speed). -/
structure DeviceStatus where
  switch : Bool
  fan_speed : Int
  deriving DecidableEq, Repr

namespace SmartThingsFan

/-- Embeds SmartThingsFan.async_set_percentage: None issues switch_on,
0 issues switch_off, otherwise set_fan_speed with
math.ceil(percentage_to_ranged_value(SPEED_RANGE, percentage)); every
branch passes set_status=True and is followed by
async_update_ha_state(True). -/
def async_set_percentage (percentage : Option Int) : FanSetPercentageEffect :=
  match percentage with
  | none => { command := .switch_on true, forced_refresh := true }
  | some p =>
    if p = 0 then
      { command := .switch_off true, forced_refresh := true }
    else
      { command := .set_fan_speed
          (math.ceil (percentage_to_ranged_value SPEED_RANGE p)) true,
        forced_refresh := true }

/-- Embeds the SmartThingsFan.is_on property. -/
def is_on (status : DeviceStatus) : Bool :=
  status.switch

/-- Embeds the SmartThingsFan.percentage property. -/
def percentage (status : DeviceStatus) : Int :=
  ranged_value_to_percentage SPEED_RANGE status.fan_speed

/-- Embeds the SmartThingsFan.speed_count property. -/
def speed_count : Int :=
  int_states_in_range SPEED_RANGE

end SmartThingsFan

/-- Status object of one attribute of a component, as stored in the
pysmartthings attribute map; the module reads its value field, a string for
the hood attributes, and converts it with the Python int(). -/
structure AttributeStatus where
  value : String
  deriving DecidableEq, Repr

/-- Cached status of one device component (pysmartthings ComponentStatus):
its attribute map, with get returning none exactly when the name is absent
(a present AttributeStatus object is always truthy), and the result of its
is_on method per attribute name (external pysmartthings logic, kept
abstract). -/
structure ComponentStatus where
  attributes : String → Option AttributeStatus
  is_on : String → Bool

/-- Accumulates the value of a list of decimal digit characters; none when a
character is not a digit. -/
def digitsToNat (acc : Nat) : List Char → Option Nat
  | [] => some acc
  | c :: cs =>
    if c.isDigit then digitsToNat (acc * 10 + (c.toNat - 48)) cs
    else none

/-- Embeds the Python int() on the plain decimal strings this module meets
(optional minus sign followed by digits); none models a raised ValueError. -/
def pyInt (s : String) : Option Int :=
  match s.data with
  | [] => none
  | ['-'] => none
  | '-' :: c :: cs => (digitsToNat 0 (c :: cs)).map (fun n => -(n : Int))
  | cs => (digitsToNat 0 cs).map (fun n => (n : Int))

/-- Fields of a SmartThingsHoodFan entity set by its constructor: the
cached hood sub-component and the cached speeds. -/
structure SmartThingsHoodFanState where
  hood : Option ComponentStatus
  current_speed : Int
  max_speed : Int

/-- Command the hood fan issues through device.command, with its keyword
arguments and the speed from its single argument dictionary. -/
structure HoodCommand where
  component_id : String
  capability : String
  command : String
  speed : Int
  deriving DecidableEq, Repr

/-- Observable effect of one SmartThingsHoodFan.async_set_percentage call:
the issued command and whether async_write_ha_state follows (an optimistic
write, with no forced refresh). -/
structure HoodSetPercentageEffect where
  command : HoodCommand
  wrote_ha_state : Bool
  deriving DecidableEq, Repr

namespace SmartThingsHoodFan

/-- Embeds the class attribute SmartThingsHoodFan._hood_fan_component_id. -/
def hood_fan_component_id : String :=
  "hood"

/-- Embeds SmartThingsHoodFan.__init__ given device.status.components:
current_speed starts at 0 and max_speed at 5; when the hood component is
present, each attribute that attributes.get finds overrides the default
with int() of its value; a failing int() raises, modelled as Except.error. -/
def init (components : String → Option ComponentStatus) :
    Except String SmartThingsHoodFanState :=
  match components hood_fan_component_id with
  | none => .ok { hood := none, current_speed := 0, max_speed := 5 }
  | some h =>
    let maxSpeedE : Except String Int :=
      match h.attributes "settableMaxFanSpeed" with
      | none => .ok 5
      | some a =>
        match pyInt a.value with
        | some n => .ok n
        | none => .error "ValueError"
    let currentSpeedE : Except String Int :=
      match h.attributes "hoodFanSpeed" with
      | none => .ok 0
      | some a =>
        match pyInt a.value with
        | some n => .ok n
        | none => .error "ValueError"
    match maxSpeedE, currentSpeedE with
    | .ok m, .ok c => .ok { hood := some h, current_speed := c, max_speed := m }
    | .error e, _ => .error e
    | .ok _, .error e => .error e

/-- Embeds SmartThingsHoodFan.async_set_percentage: the method mutates no
entity field, so it returns the unchanged state together with its effect;
speed is max_speed for None, 0 for 0, otherwise
math.ceil(percentage_to_ranged_value((1, max_speed), percentage)); the
command goes to the hood component with capability samsungce.hoodFanSpeed
and command setHoodFanSpeed, then async_write_ha_state is called. -/
def async_set_percentage (s : SmartThingsHoodFanState) (percentage : Option Int) :
    SmartThingsHoodFanState × HoodSetPercentageEffect :=
  let speed : Int :=
    match percentage with
    | none => s.max_speed
    | some p =>
      if p = 0 then 0
      else math.ceil (percentage_to_ranged_value ⟨1, s.max_speed⟩ p)
  (s,
   { command :=
       { component_id := hood_fan_component_id,
         capability := "samsungce.hoodFanSpeed",
         command := "setHoodFanSpeed",
         speed := speed },
     wrote_ha_state := true })

/-- Embeds the SmartThingsHoodFan.is_on property: the body returns the
pysmartthings is_on result when the cached hood component is truthy, and
otherwise falls off the end of the function (the literal False is not
returned), so Python yields None, modelled as none. -/
def is_on (s : SmartThingsHoodFanState) : Option Bool :=
  match s.hood with
  | some h => some (h.is_on "hoodFanSpeed")
  | none => none

/-- Embeds the SmartThingsHoodFan.percentage property: conversion of the
cached current_speed over the module constant SPEED_RANGE = (1, 3). -/
def percentage (s : SmartThingsHoodFanState) : Int :=
  ranged_value_to_percentage SPEED_RANGE s.current_speed

/-- Embeds the SmartThingsHoodFan.speed_count property. -/
def speed_count (s : SmartThingsHoodFanState) : Int :=
  s.max_speed

/-- Embeds SmartThingsHoodFan.async_turn_on: delegates to
async_set_percentage with its percentage argument (default None). -/
def async_turn_on (s : SmartThingsHoodFanState) (percentage : Option Int) :
    SmartThingsHoodFanState × HoodSetPercentageEffect :=
  async_set_percentage s percentage

/-- Embeds SmartThingsHoodFan.async_turn_off: delegates to
async_set_percentage with percentage 0. -/
def async_turn_off (s : SmartThingsHoodFanState) :
    SmartThingsHoodFanState × HoodSetPercentageEffect :=
  async_set_percentage s (some 0)

end SmartThingsHoodFan

/-- Kinds of fan entity class defined by the module. -/
inductive FanEntityClass where
  | standard
  | hood
  deriving DecidableEq, Repr

/-- Device handle as enumerated by the broker: its identifier and the
capability identifiers it advertises (the setup function itself never
inspects the capabilities). -/
structure BrokerDevice where
  device_id : String
  capabilities : List String
  deriving DecidableEq, Repr

/-- Broker for a config entry: its device list and the any_assigned
predicate over device identifier and platform name. -/
structure Broker where
  devices : List BrokerDevice
  any_assigned : String → String → Bool

/-- Embeds fan.py async_setup_entry: for every broker device with
any_assigned(device_id, "fan") it constructs SmartThingsFan(device) and
registers it; the list comprehension is the filter of the device list
followed by tagging each device with the standard entity class. -/
def async_setup_entry (broker : Broker) : List (FanEntityClass × BrokerDevice) :=
  (broker.devices.filter (fun device => broker.any_assigned device.device_id "fan")).map
    (fun device => (FanEntityClass.standard, device))

/-! Concrete fixtures used by the scenario theorems and the witnesses. -/

/-- Hood component reporting settableMaxFanSpeed "10" and hoodFanSpeed "3". -/
def hoodComponent10 : ComponentStatus :=
  { attributes := fun name =>
      if name = "settableMaxFanSpeed" then some { value := "10" }
      else if name = "hoodFanSpeed" then some { value := "3" }
      else none,
    is_on := fun _ => true }

/-- Component map of a device whose hood component is hoodComponent10. -/
def hoodComponents10 : String → Option ComponentStatus :=
  fun name => if name = "hood" then some hoodComponent10 else none

/-- Hood component reporting only settableMaxFanSpeed "7". -/
def hoodComponent7 : ComponentStatus :=
  { attributes := fun name =>
      if name = "settableMaxFanSpeed" then some { value := "7" } else none,
    is_on := fun _ => false }

/-- Component map of a device whose hood component is hoodComponent7. -/
def hoodComponents7 : String → Option ComponentStatus :=
  fun name => if name = "hood" then some hoodComponent7 else none

/-- Broker with a single fan-assigned device advertising the hood
capability. -/
def hoodBroker : Broker :=
  { devices := [{ device_id := "device-1", capabilities := [HOOD_FAN_CAPABILITY] }],
    any_assigned := fun _ _ => true }

/-! Helper lemmas evaluating math.ceil at the concrete rationals the
scenario theorems and witnesses reach. -/

lemma ceil_pct_33 : math.ceil (percentage_to_ranged_value SPEED_RANGE 33) = 1 := by
  unfold math.ceil percentage_to_ranged_value states_in_range SPEED_RANGE
  norm_num [Int.ceil_eq_iff]

lemma ceil_pct_66 : math.ceil (percentage_to_ranged_value SPEED_RANGE 66) = 2 := by
  unfold math.ceil percentage_to_ranged_value states_in_range SPEED_RANGE
  norm_num [Int.ceil_eq_iff]

lemma ceil_pct_100 : math.ceil (percentage_to_ranged_value SPEED_RANGE 100) = 3 := by
  unfold math.ceil percentage_to_ranged_value states_in_range SPEED_RANGE
  norm_num [Int.ceil_eq_iff]

/-- C1. For every integer speed s in [1,3], the percentage the standard fan
reports for remote speed s, fed back through async_set_percentage, issues a
set_fan_speed command with the same speed s, the pure round trip
ceil(percentage_to_ranged_value((1,3), ranged_value_to_percentage((1,3), s)))
gives back s, and remote speed 0 is reported as 0 percent. -/
theorem standard_fan_percentage_roundtrip (s : Int) (h1 : 1 ≤ s) (h2 : s ≤ 3) :
    math.ceil (percentage_to_ranged_value SPEED_RANGE
      (ranged_value_to_percentage SPEED_RANGE s)) = s ∧
    (∀ b : Bool,
      SmartThingsFan.async_set_percentage
          (some (SmartThingsFan.percentage { switch := b, fan_speed := s })) =
        { command := .set_fan_speed s true, forced_refresh := true }) ∧
    SmartThingsFan.percentage { switch := false, fan_speed := 0 } = 0 := by
  have key : ∀ b : Bool, ∀ t : Int, 1 ≤ t → t ≤ 3 →
      SmartThingsFan.async_set_percentage
          (some (SmartThingsFan.percentage { switch := b, fan_speed := t })) =
        { command := .set_fan_speed t true, forced_refresh := true } := by
    intro b t ht1 ht2
    interval_cases t
    · have hp : SmartThingsFan.percentage { switch := b, fan_speed := 1 } = 33 := rfl
      rw [hp]
      simp only [SmartThingsFan.async_set_percentage]
      rw [if_neg (by norm_num)]
      rw [ceil_pct_33]
    · have hp : SmartThingsFan.percentage { switch := b, fan_speed := 2 } = 66 := rfl
      rw [hp]
      simp only [SmartThingsFan.async_set_percentage]
      rw [if_neg (by norm_num)]
      rw [ceil_pct_66]
    · have hp : SmartThingsFan.percentage { switch := b, fan_speed := 3 } = 100 := rfl
      rw [hp]
      simp only [SmartThingsFan.async_set_percentage]
      rw [if_neg (by norm_num)]
      rw [ceil_pct_100]
  refine ⟨?_, fun b => key b s h1 h2, rfl⟩
  interval_cases s
  · have hp : ranged_value_to_percentage SPEED_RANGE 1 = 33 := rfl
    rw [hp, ceil_pct_33]
  · have hp : ranged_value_to_percentage SPEED_RANGE 2 = 66 := rfl
    rw [hp, ceil_pct_66]
  · have hp : ranged_value_to_percentage SPEED_RANGE 3 = 100 := rfl
    rw [hp, ceil_pct_100]

/-- Witness for C1 at the concrete speed 2. -/
theorem standard_fan_percentage_roundtrip_witness :
    (1 : Int) ≤ 2 ∧ (2 : Int) ≤ 3 ∧
    SmartThingsFan.async_set_percentage
        (some (SmartThingsFan.percentage { switch := true, fan_speed := 2 })) =
      { command := .set_fan_speed 2 true, forced_refresh := true } :=
  ⟨by norm_num, by norm_num,
    (standard_fan_percentage_roundtrip 2 (by norm_num) (by norm_num)).2.1 true⟩

/-- C2. The capability detector returns the hood singleton whenever the hood
capability is present, otherwise returns the standard pair exactly when both
switch and fan_speed are present, and otherwise returns none. -/
theorem get_capabilities_cases (capabilities : List String) :
    (HOOD_FAN_CAPABILITY ∈ capabilities →
      get_capabilities capabilities = some [HOOD_FAN_CAPABILITY]) ∧
    (HOOD_FAN_CAPABILITY ∉ capabilities →
      (get_capabilities capabilities = some STANDARD_FAN_CAPABILITIES ↔
        Capability.switch ∈ capabilities ∧ Capability.fan_speed ∈ capabilities)) ∧
    (HOOD_FAN_CAPABILITY ∉ capabilities →
      (Capability.switch ∉ capabilities ∨ Capability.fan_speed ∉ capabilities) →
      get_capabilities capabilities = none) := by
  refine ⟨fun hh => ?_, fun hh => ?_, fun hh hmiss => ?_⟩
  · simp [get_capabilities, hh]
  · by_cases hs : Capability.switch ∈ capabilities <;>
      by_cases hf : Capability.fan_speed ∈ capabilities <;>
        simp [get_capabilities, hh, hs, hf, STANDARD_FAN_CAPABILITIES]
  · rcases hmiss with h | h <;>
      simp [get_capabilities, hh, h, STANDARD_FAN_CAPABILITIES]

/-- Witness for C2 at three concrete capability lists. -/
theorem get_capabilities_cases_witness :
    get_capabilities [Capability.switch, Capability.fan_speed] =
      some STANDARD_FAN_CAPABILITIES ∧
    get_capabilities [HOOD_FAN_CAPABILITY, Capability.switch, Capability.fan_speed] =
      some [HOOD_FAN_CAPABILITY] ∧
    get_capabilities [Capability.switch] = none :=
  ⟨((get_capabilities_cases _).2.1 (by decide)).mpr ⟨by decide, by decide⟩,
    (get_capabilities_cases _).1 (by decide),
    (get_capabilities_cases _).2.2 (by decide) (Or.inr (by decide))⟩

/-- C3. The setup function tags every registered entity with the standard
fan class: every fan-assigned broker device yields the standard entity, and
no entity of the hood class is ever constructed, whatever the device
advertises. -/
theorem async_setup_entry_only_standard (broker : Broker) :
    (∀ e ∈ async_setup_entry broker, e.1 = FanEntityClass.standard) ∧
    (∀ d ∈ broker.devices, broker.any_assigned d.device_id "fan" = true →
      (FanEntityClass.standard, d) ∈ async_setup_entry broker) ∧
    (∀ e ∈ async_setup_entry broker, e.1 ≠ FanEntityClass.hood) := by
  refine ⟨fun e he => ?_, fun d hd ha => ?_, fun e he => ?_⟩
  · rcases List.mem_map.mp he with ⟨d, _, rfl⟩
    rfl
  · exact List.mem_map.mpr ⟨d, List.mem_filter.mpr ⟨hd, ha⟩, rfl⟩
  · rcases List.mem_map.mp he with ⟨d, _, rfl⟩
    simp

/-- Witness for C3 on a broker whose single fan-assigned device advertises
the hood capability: the constructed entity is still the standard class. -/
theorem async_setup_entry_only_standard_witness :
    (FanEntityClass.standard,
      ({ device_id := "device-1", capabilities := [HOOD_FAN_CAPABILITY] } : BrokerDevice)) ∈
      async_setup_entry hoodBroker ∧
    (∀ e ∈ async_setup_entry hoodBroker, e.1 ≠ FanEntityClass.hood) :=
  ⟨(async_setup_entry_only_standard hoodBroker).2.1 _ (by decide) rfl,
    (async_setup_entry_only_standard hoodBroker).2.2⟩

/-- C4. Standard fan set_percentage: None issues switch_on, 0 issues
switch_off, any other percentage issues set_fan_speed with the ceiling of
the ranged value over (1,3), which lies in [1,3] for percentages in
[1,100]; every branch passes set_status=True and forces a full refresh. -/
theorem standard_fan_set_percentage_spec (percentage : Option Int) :
    (SmartThingsFan.async_set_percentage percentage).command.set_status = true ∧
    (SmartThingsFan.async_set_percentage percentage).forced_refresh = true ∧
    (percentage = none →
      (SmartThingsFan.async_set_percentage percentage).command = .switch_on true) ∧
    (percentage = some 0 →
      (SmartThingsFan.async_set_percentage percentage).command = .switch_off true) ∧
    (∀ p : Int, percentage = some p → p ≠ 0 →
      (SmartThingsFan.async_set_percentage percentage).command =
        .set_fan_speed (math.ceil (percentage_to_ranged_value SPEED_RANGE p)) true ∧
      (1 ≤ p → p ≤ 100 →
        1 ≤ math.ceil (percentage_to_ranged_value SPEED_RANGE p) ∧
        math.ceil (percentage_to_ranged_value SPEED_RANGE p) ≤ 3)) := by
  have bounds : ∀ p : Int, 1 ≤ p → p ≤ 100 →
      1 ≤ math.ceil (percentage_to_ranged_value SPEED_RANGE p) ∧
      math.ceil (percentage_to_ranged_value SPEED_RANGE p) ≤ 3 := by
    intro p hp1 hp2
    have hp1q : (1 : ℚ) ≤ (p : ℚ) := by exact_mod_cast hp1
    have hp2q : (p : ℚ) ≤ 100 := by exact_mod_cast hp2
    unfold math.ceil percentage_to_ranged_value states_in_range SPEED_RANGE
    constructor
    · rw [Int.one_le_ceil_iff]
      push_cast
      linarith
    · rw [Int.ceil_le]
      push_cast
      linarith
  match percentage with
  | none =>
    refine ⟨rfl, rfl, fun _ => rfl, by simp, ?_⟩
    intro q hq
    exact absurd hq (by simp)
  | some p =>
    by_cases hp : p = 0
    · subst hp
      refine ⟨rfl, rfl, by simp, fun _ => rfl, ?_⟩
      intro q hq hq0
      injection hq with h
      exact absurd h.symm hq0
    · have hcmd : (SmartThingsFan.async_set_percentage (some p)).command =
          .set_fan_speed (math.ceil (percentage_to_ranged_value SPEED_RANGE p)) true := by
        simp only [SmartThingsFan.async_set_percentage, if_neg hp]
      refine ⟨by rw [hcmd]; rfl, ?_, by simp, ?_, ?_⟩
      · simp [SmartThingsFan.async_set_percentage, if_neg hp]
      · intro h
        injection h with h
        exact absurd h hp
      · intro q hq hq0
        injection hq with h
        subst h
        exact ⟨hcmd, bounds p⟩

/-- Witness for C4 at the concrete percentage 66. -/
theorem standard_fan_set_percentage_spec_witness :
    (SmartThingsFan.async_set_percentage (some 66)).command =
      .set_fan_speed (math.ceil (percentage_to_ranged_value SPEED_RANGE 66)) true ∧
    1 ≤ math.ceil (percentage_to_ranged_value SPEED_RANGE 66) ∧
    math.ceil (percentage_to_ranged_value SPEED_RANGE 66) ≤ 3 ∧
    (SmartThingsFan.async_set_percentage (some 66)).forced_refresh = true := by
  obtain ⟨hcmd, hbounds⟩ :=
    ((standard_fan_set_percentage_spec (some 66)).2.2.2.2) 66 rfl (by norm_num)
  obtain ⟨hb1, hb2⟩ := hbounds (by norm_num) (by norm_num)
  exact ⟨hcmd, hb1, hb2, (standard_fan_set_percentage_spec (some 66)).2.1⟩

/-- C5. Hood fan set_percentage: the setHoodFanSpeed command goes to the
hood component with the speed max_speed for None, 0 for 0, and the ceiling
of the ranged value over (1, max_speed) otherwise; turn_on with no
percentage sends max_speed and turn_off sends 0. -/
theorem hood_fan_set_percentage_spec (s : SmartThingsHoodFanState)
    (percentage : Option Int) :
    (SmartThingsHoodFan.async_set_percentage s percentage).2.command.component_id = "hood" ∧
    (SmartThingsHoodFan.async_set_percentage s percentage).2.command.capability =
      "samsungce.hoodFanSpeed" ∧
    (SmartThingsHoodFan.async_set_percentage s percentage).2.command.command =
      "setHoodFanSpeed" ∧
    (percentage = none →
      (SmartThingsHoodFan.async_set_percentage s percentage).2.command.speed = s.max_speed) ∧
    (percentage = some 0 →
      (SmartThingsHoodFan.async_set_percentage s percentage).2.command.speed = 0) ∧
    (∀ p : Int, percentage = some p → p ≠ 0 →
      (SmartThingsHoodFan.async_set_percentage s percentage).2.command.speed =
        math.ceil (percentage_to_ranged_value ⟨1, s.max_speed⟩ p)) ∧
    (SmartThingsHoodFan.async_turn_on s none).2.command.speed = s.max_speed ∧
    (SmartThingsHoodFan.async_turn_off s).2.command.speed = 0 := by
  refine ⟨rfl, rfl, rfl, ?_, ?_, ?_, rfl, rfl⟩
  · intro h
    subst h
    rfl
  · intro h
    subst h
    rfl
  · intro p h hp
    subst h
    show (if p = 0 then (0 : Int)
      else math.ceil (percentage_to_ranged_value ⟨1, s.max_speed⟩ p)) = _
    rw [if_neg hp]

/-- Witness for C5 on a hood state with max_speed 5, at percentages 50, 0
and None. -/
theorem hood_fan_set_percentage_spec_witness :
    (SmartThingsHoodFan.async_set_percentage ⟨none, 0, 5⟩ (some 50)).2.command.speed =
      math.ceil (percentage_to_ranged_value ⟨1, 5⟩ 50) ∧
    (SmartThingsHoodFan.async_set_percentage ⟨none, 0, 5⟩ (some 0)).2.command.speed = 0 ∧
    (SmartThingsHoodFan.async_set_percentage ⟨none, 0, 5⟩ none).2.command.speed = 5 :=
  ⟨(hood_fan_set_percentage_spec ⟨none, 0, 5⟩ (some 50)).2.2.2.2.2.1 50 rfl (by norm_num),
    (hood_fan_set_percentage_spec ⟨none, 0, 5⟩ (some 0)).2.2.2.2.1 rfl,
    (hood_fan_set_percentage_spec ⟨none, 0, 5⟩ none).2.2.2.1 rfl⟩

/-- C6. The hood fan percentage property converts the cached current_speed
over the fixed range SPEED_RANGE = (1,3), not over max_speed, while
speed_count returns the cached max_speed; for a hood device constructed
with settableMaxFanSpeed "10" and hoodFanSpeed "3", speed_count is 10 and
percentage is ranged_value_to_percentage((1,3), 3) = 100, not the value 30
of the max_speed range. -/
theorem hood_fan_percentage_fixed_range :
    (∀ s : SmartThingsHoodFanState,
      SmartThingsHoodFan.percentage s =
        ranged_value_to_percentage SPEED_RANGE s.current_speed ∧
      SmartThingsHoodFan.speed_count s = s.max_speed) ∧
    SmartThingsHoodFan.init hoodComponents10 =
      .ok { hood := some hoodComponent10, current_speed := 3, max_speed := 10 } ∧
    SmartThingsHoodFan.speed_count ⟨some hoodComponent10, 3, 10⟩ = 10 ∧
    SmartThingsHoodFan.percentage ⟨some hoodComponent10, 3, 10⟩ = 100 ∧
    ranged_value_to_percentage SPEED_RANGE 3 = 100 ∧
    ranged_value_to_percentage ⟨1, 10⟩ 3 = 30 :=
  ⟨fun _ => ⟨rfl, rfl⟩, rfl, rfl, rfl, rfl, rfl⟩

/-- C7. The hood fan constructor defaults instead of raising: a missing
hood component gives max_speed 5 and current_speed 0; a present hood
component with both attributes missing gives the same defaults; a present
settableMaxFanSpeed with value "7" gives max_speed 7. -/
theorem hood_fan_init_defaults (components : String → Option ComponentStatus) :
    (components "hood" = none →
      SmartThingsHoodFan.init components =
        .ok { hood := none, current_speed := 0, max_speed := 5 }) ∧
    (∀ h : ComponentStatus, components "hood" = some h →
      h.attributes "settableMaxFanSpeed" = none →
      h.attributes "hoodFanSpeed" = none →
      SmartThingsHoodFan.init components =
        .ok { hood := some h, current_speed := 0, max_speed := 5 }) ∧
    (∀ (h : ComponentStatus) (a : AttributeStatus), components "hood" = some h →
      h.attributes "settableMaxFanSpeed" = some a →
      a.value = "7" →
      h.attributes "hoodFanSpeed" = none →
      SmartThingsHoodFan.init components =
        .ok { hood := some h, current_speed := 0, max_speed := 7 }) := by
  refine ⟨fun hno => ?_, fun h hh hs hf => ?_, fun h a hh hs hv hf => ?_⟩
  · simp only [SmartThingsHoodFan.init, SmartThingsHoodFan.hood_fan_component_id]
    rw [hno]
  · simp only [SmartThingsHoodFan.init, SmartThingsHoodFan.hood_fan_component_id]
    rw [hh]
    dsimp only
    rw [hs, hf]
  · simp only [SmartThingsHoodFan.init, SmartThingsHoodFan.hood_fan_component_id]
    rw [hh]
    dsimp only
    rw [hs, hf]
    dsimp only
    rw [hv]
    rfl

/-- Witness for C7: a device with no components at all and a device whose
hood component reports settableMaxFanSpeed "7". -/
theorem hood_fan_init_defaults_witness :
    SmartThingsHoodFan.init (fun _ => none) =
      .ok { hood := none, current_speed := 0, max_speed := 5 } ∧
    SmartThingsHoodFan.init hoodComponents7 =
      .ok { hood := some hoodComponent7, current_speed := 0, max_speed := 7 } :=
  ⟨(hood_fan_init_defaults (fun _ => none)).1 rfl,
    (hood_fan_init_defaults hoodComponents7).2.2 hoodComponent7 ⟨"7"⟩ rfl rfl rfl rfl⟩

/-- C8. The hood fan is_on property is some true exactly when the cached
hood component exists and its pysmartthings is_on reports the hoodFanSpeed
attribute as on; with no hood component the property returns the Python
None (a falsy non-return), modelled as none. -/
theorem hood_fan_is_on_spec (s : SmartThingsHoodFanState) :
    (SmartThingsHoodFan.is_on s = some true ↔
      ∃ h : ComponentStatus, s.hood = some h ∧ h.is_on "hoodFanSpeed" = true) ∧
    (s.hood = none → SmartThingsHoodFan.is_on s = none) := by
  obtain ⟨hood, cur, mx⟩ := s
  cases hood with
  | none =>
    exact ⟨by simp [SmartThingsHoodFan.is_on], fun _ => rfl⟩
  | some h =>
    refine ⟨?_, fun hc => by cases hc⟩
    simp [SmartThingsHoodFan.is_on]

/-- Witness for C8: a hood state whose component reports on, and a state
with no hood component. -/
theorem hood_fan_is_on_spec_witness :
    SmartThingsHoodFan.is_on ⟨some hoodComponent10, 3, 10⟩ = some true ∧
    SmartThingsHoodFan.is_on ⟨none, 0, 5⟩ = none :=
  ⟨(hood_fan_is_on_spec ⟨some hoodComponent10, 3, 10⟩).1.mpr ⟨hoodComponent10, rfl, rfl⟩,
    (hood_fan_is_on_spec ⟨none, 0, 5⟩).2 rfl⟩

/-- C9. The hood fan operations mutate no cached field: set_percentage,
turn_on and turn_off all return the entity state unchanged, so max_speed,
current_speed and the derived percentage and speed_count are the same
before and after each operation. -/
theorem hood_fan_ops_frame (s : SmartThingsHoodFanState) (percentage : Option Int) :
    (SmartThingsHoodFan.async_set_percentage s percentage).1 = s ∧
    (SmartThingsHoodFan.async_turn_on s percentage).1 = s ∧
    (SmartThingsHoodFan.async_turn_off s).1 = s ∧
    (SmartThingsHoodFan.async_set_percentage s percentage).1.max_speed = s.max_speed ∧
    (SmartThingsHoodFan.async_set_percentage s percentage).1.current_speed =
      s.current_speed ∧
    SmartThingsHoodFan.percentage (SmartThingsHoodFan.async_set_percentage s percentage).1 =
      SmartThingsHoodFan.percentage s ∧
    SmartThingsHoodFan.speed_count (SmartThingsHoodFan.async_set_percentage s percentage).1 =
      SmartThingsHoodFan.speed_count s ∧
    SmartThingsHoodFan.percentage (SmartThingsHoodFan.async_turn_on s percentage).1 =
      SmartThingsHoodFan.percentage s ∧
    SmartThingsHoodFan.speed_count (SmartThingsHoodFan.async_turn_off s).1 =
      SmartThingsHoodFan.speed_count s :=
  ⟨rfl, rfl, rfl, rfl, rfl, rfl, rfl, rfl, rfl⟩

/-- C10, counterexample. For remote speed 2 the standard fan percentage
property computes int((2 * 100) // 3) = 66, not the claimed 67. -/
theorem standard_fan_percentage_speed_two_not_67 :
    SmartThingsFan.percentage { switch := true, fan_speed := 2 } = 66 ∧
    ¬ SmartThingsFan.percentage { switch := true, fan_speed := 2 } = 67 := by
  decide

/-- C10, amended. For a standard fan whose device reports remote speed 2,
the percentage property returns 66 (floor of 200/3 per the two-way
conversion over range (1,3)) and speed_count returns 3. -/
theorem standard_fan_percentage_at_speed_two :
    SmartThingsFan.percentage { switch := true, fan_speed := 2 } = 66 ∧
    SmartThingsFan.speed_count = 3 := by
  decide
